import Mathlib

/-!
Verification development for the NoBizz summarization service
(`supabase/functions/nbs-tech`).

The service orchestrates article summarization over an expiring key/value
store (Upstash Redis) and an asynchronous inference provider (Replicate):

* `normalizeUrl` / `generateContentHash` (utils) canonicalize a URL and
  derive the SHA-256 content fingerprint;
* `handleGenerateSummary` (routers/generate-summary.ts) answers generate
  requests: cache lookup, dedup lock (`setnx`), provider submission;
* `handleFetchSummary` answers poll queries;
* `handleWebhook` consumes the provider callback and finalizes the cache;
* `createRedisClient` (domain/redis-client.ts) wraps the Upstash REST API.

The embedding below is shallow: the remote store is explicit state
(an association list of key, value, TTL-seconds), asynchronous collaborators
(content extractor, provider, transport) are explicit parameters, and each
HTTP handler becomes a pure function from request and state to response,
state, and an effect trace.  JSON (de)serialization of the two record
shapes the code stores is embedded as typed store values (`StoreVal`):
every write the code performs serializes exactly one of those shapes, and
a parse of a value of the wrong shape is mapped to the thrown-error branch.
JavaScript truthiness on optional strings is modelled explicitly (`jsOr`,
`jsTruthy`).  SHA-256 itself is implemented in full so that fingerprints
evaluate on concrete inputs.
-/

namespace NoBizz

/-! ## JavaScript string primitives used by the source -/

/-- JS `a || b` for strings: the empty string is falsy. -/
def jsOr (a b : String) : String := if a = "" then b else a

/-- JS `opt || b` for an optional string (`undefined` and `""` are falsy). -/
def jsOrOpt (a : Option String) (b : String) : String :=
  match a with
  | some s => jsOr s b
  | none => b

/-- JS truthiness of an optional string (`undefined`, `null`, `""` falsy). -/
def jsTruthy (a : Option String) : Bool :=
  match a with
  | some s => s != ""
  | none => false

/-- The whitespace set of JS `String.prototype.trim` (ASCII part, which is
all the service's inputs use). -/
def jsIsSpace (c : Char) : Bool :=
  c = ' ' || c = '\t' || c = '\n' || c = '\r' ||
  c = (Char.ofNat 11) || c = (Char.ofNat 12) || c = (Char.ofNat 0xa0) ||
  c = (Char.ofNat 0xfeff)

/-- JS `s.trim()`. -/
def jsTrim (s : String) : String :=
  String.mk ((s.data.dropWhile jsIsSpace).reverse.dropWhile jsIsSpace |>.reverse)

/-- JS `s.substring(0, n)` (code-unit prefix; our inputs are ASCII). -/
def jsTake (s : String) (n : Nat) : String := String.mk (s.data.take n)

/-- JS `s.toLowerCase()` restricted to ASCII (hostnames). -/
def jsLower (s : String) : String := String.mk (s.data.map Char.toLower)

/-! ## JSON serialization (`JSON.stringify` on the stored record shapes) -/

/-- `JSON.stringify` escaping of one character. -/
def jsonEscChar (c : Char) : List Char :=
  if c = '"' then ['\\', '"']
  else if c = '\\' then ['\\', '\\']
  else if c = '\n' then ['\\', 'n']
  else if c = '\r' then ['\\', 'r']
  else if c = '\t' then ['\\', 't']
  else if c.toNat = 8 then ['\\', 'b']
  else if c.toNat = 12 then ['\\', 'f']
  else if c.toNat < 32 then
    ['\\', 'u', '0', '0',
     (if c.toNat / 16 < 10 then Char.ofNat (48 + c.toNat / 16)
      else Char.ofNat (87 + c.toNat / 16)),
     (if c.toNat % 16 < 10 then Char.ofNat (48 + c.toNat % 16)
      else Char.ofNat (87 + c.toNat % 16))]
  else [c]

/-- `JSON.stringify` of a string value. -/
def jsonStr (s : String) : String :=
  String.mk ('"' :: (s.data.flatMap jsonEscChar ++ ['"']))

/-! ## SHA-256 (`crypto.subtle.digest('SHA-256', ...)`)

Implemented over `Nat` bytes/words with explicit `% 2^32`, exactly the
FIPS 180-4 algorithm the Web Crypto call performs. -/

/-- Truncate to a 32-bit word. -/
def w32 (x : Nat) : Nat := x % 4294967296

/-- Right rotation of a 32-bit word. -/
def rotr (n x : Nat) : Nat := (x >>> n) ||| ((x % (2 ^ n)) <<< (32 - n))

def shaCh (x y z : Nat) : Nat := (x &&& y) ^^^ ((x ^^^ 4294967295) &&& z)

def shaMaj (x y z : Nat) : Nat := (x &&& y) ^^^ (x &&& z) ^^^ (y &&& z)

def bigSigma0 (x : Nat) : Nat := rotr 2 x ^^^ rotr 13 x ^^^ rotr 22 x

def bigSigma1 (x : Nat) : Nat := rotr 6 x ^^^ rotr 11 x ^^^ rotr 25 x

def smallSigma0 (x : Nat) : Nat := rotr 7 x ^^^ rotr 18 x ^^^ (x >>> 3)

def smallSigma1 (x : Nat) : Nat := rotr 17 x ^^^ rotr 19 x ^^^ (x >>> 10)

/-- The 64 SHA-256 round constants (FIPS 180-4, in decimal). -/
def shaK : Array Nat := #[
  1116352408, 1899447441, 3049323471, 3921009573, 961987163,
  1508970993, 2453635748, 2870763221, 3624381080, 310598401,
  607225278, 1426881987, 1925078388, 2162078206, 2614888103,
  3248222580, 3835390401, 4022224774, 264347078, 604807628,
  770255983, 1249150122, 1555081692, 1996064986, 2554220882,
  2821834349, 2952996808, 3210313671, 3336571891, 3584528711,
  113926993, 338241895, 666307205, 773529912, 1294757372,
  1396182291, 1695183700, 1986661051, 2177026350, 2456956037,
  2730485921, 2820302411, 3259730800, 3345764771, 3516065817,
  3600352804, 4094571909, 275423344, 430227734, 506948616,
  659060556, 883997877, 958139571, 1322822218, 1537002063,
  1747873779, 1955562222, 2024104815, 2227730452, 2361852424,
  2428436474, 2756734187, 3204031479, 3329325298]

/-- Initial SHA-256 state (in decimal). -/
def shaH0 : Array Nat := #[
  1779033703, 3144134277, 1013904242,
  2773480762, 1359893119, 2600822924,
  528734635, 1541459225]

/-- A 64-bit big-endian length field, as 8 bytes. -/
def be64 (n : Nat) : List Nat :=
  (List.range 8).map (fun i => (n >>> (8 * (7 - i))) % 256)

/-- SHA-256 message padding. -/
def shaPad (msg : List Nat) : List Nat :=
  let z := (119 - msg.length % 64) % 64
  msg ++ [0x80] ++ List.replicate z 0 ++ be64 (8 * msg.length)

/-- Split a byte list into 64-byte blocks; the fuel argument (any bound on
the number of blocks, here the total length) keeps the recursion structural. -/
def chunks64Go : Nat → List Nat → List (List Nat)
  | _, [] => []
  | 0, _ => []
  | fuel + 1, x :: xs => ((x :: xs).take 64) :: chunks64Go fuel ((x :: xs).drop 64)

/-- Split the padded message into 64-byte blocks. -/
def chunks64 (l : List Nat) : List (List Nat) := chunks64Go l.length l

/-- The 16 initial 32-bit words of one block (big-endian). -/
def blockWords (b : List Nat) : Array Nat :=
  ((List.range 16).map (fun i =>
    b.getD (4 * i) 0 <<< 24 ||| b.getD (4 * i + 1) 0 <<< 16 |||
    b.getD (4 * i + 2) 0 <<< 8 ||| b.getD (4 * i + 3) 0)).toArray

/-- Extend 16 words to the 64-entry message schedule. -/
def shaSchedule (ws : Array Nat) : Array Nat :=
  (List.range 48).foldl (fun a t =>
    a.push (w32 (smallSigma1 (a.getD (t + 14) 0) + a.getD (t + 9) 0 +
                 smallSigma0 (a.getD (t + 1) 0) + a.getD t 0))) ws

/-- One round of the SHA-256 compression function. -/
def shaRound (wk : Nat × Nat) (st : Array Nat) : Array Nat :=
  let a := st.getD 0 0
  let b := st.getD 1 0
  let c := st.getD 2 0
  let d := st.getD 3 0
  let e := st.getD 4 0
  let f := st.getD 5 0
  let g := st.getD 6 0
  let hh := st.getD 7 0
  let t1 := w32 (hh + bigSigma1 e + shaCh e f g + wk.1 + wk.2)
  let t2 := w32 (bigSigma0 a + shaMaj a b c)
  #[w32 (t1 + t2), a, b, c, w32 (d + t1), e, f, g]

/-- Compress one 64-byte block into the running state. -/
def shaCompress (st : Array Nat) (b : List Nat) : Array Nat :=
  let w := shaSchedule (blockWords b)
  let fin := (List.range 64).foldl
    (fun s t => shaRound (shaK.getD t 0, w.getD t 0) s) st
  (List.range 8).foldl (fun a i =>
    a.push (w32 (st.getD i 0 + fin.getD i 0))) #[]

/-- SHA-256 of a byte sequence, as 32 digest bytes. -/
def sha256 (msg : List Nat) : List Nat :=
  let fin := (chunks64 (shaPad msg)).foldl shaCompress shaH0
  (List.range 8).flatMap (fun i =>
    [fin.getD i 0 >>> 24 % 256, fin.getD i 0 >>> 16 % 256,
     fin.getD i 0 >>> 8 % 256, fin.getD i 0 % 256])

/-- One lowercase hex digit. -/
def hexDigit (n : Nat) : Char :=
  if n < 10 then Char.ofNat (48 + n) else Char.ofNat (87 + n)

/-- Lowercase hex of a byte list (`padStart(2, '0')` per byte, joined). -/
def bytesToHex (bs : List Nat) : String :=
  String.mk (bs.flatMap (fun b => [hexDigit (b / 16 % 16), hexDigit (b % 16)]))

/-- UTF-8 bytes of a string (`TextEncoder`). -/
def utf8Bytes (s : String) : List Nat :=
  s.data.flatMap (fun c =>
    let n := c.toNat
    if n < 0x80 then [n]
    else if n < 0x800 then [0xc0 ||| n >>> 6, 0x80 ||| n &&& 0x3f]
    else if n < 0x10000 then
      [0xe0 ||| n >>> 12, 0x80 ||| (n >>> 6) &&& 0x3f, 0x80 ||| n &&& 0x3f]
    else
      [0xf0 ||| n >>> 18, 0x80 ||| (n >>> 12) &&& 0x3f,
       0x80 ||| (n >>> 6) &&& 0x3f, 0x80 ||| n &&& 0x3f])

/-! ## Content hashing (`generateContentHash`, utils/url-normalizer.ts)

```ts
const content = JSON.stringify({
  url: normalizedUrl,
  headline: headline.trim(),
  snippet: snippet.trim().substring(0, 300),
});
// SHA-256 of the UTF-8 bytes, lowercase hex
```
-/

/-- The serialized `\x7burl, headline, snippet\x7d` object the code hashes. -/
def hashContent (normalizedUrl headline snippet : String) : String :=
  String.join [("\x7b\"url\":"), jsonStr normalizedUrl,
    (",\"headline\":"), jsonStr (jsTrim headline),
    (",\"snippet\":"), jsonStr (jsTake (jsTrim snippet) 300), ("\x7d")]

/-- `generateContentHash(normalizedUrl, headline = '', snippet = '')`. -/
def generateContentHash (normalizedUrl : String) (headline : String := "")
    (snippet : String := "") : String :=
  bytesToHex (sha256 (utf8Bytes (hashContent normalizedUrl headline snippet)))

/-! ## URL normalization (`normalizeUrl`, utils/url-normalizer.ts)

The source manipulates a WHATWG `URL` object.  The embedding represents the
parsed object explicitly (`UrlObj`) over the grammar
`scheme://host path ?query #fragment` (no userinfo or port, no percent
escaping — none of the service's URLs use them; a raw URL outside this
subset is mapped to the `new URL(...)` throw, i.e. the catch branch that
returns the input unchanged). -/

/-- A parsed WHATWG URL object, restricted to the components the code
touches: `protocol`, `hostname`, `pathname`, `searchParams`, `hash`. -/
structure UrlObj where
  scheme : String
  host : String
  path : String
  params : List (String × String)
  fragment : String
deriving DecidableEq, Repr

/-- Split a list at the first occurrence of a pattern: returns the part
before it and the part after it.  `none` when the pattern does not occur. -/
def splitFirst (pat : List Char) : List Char → Option (List Char × List Char)
  | [] => if pat.isEmpty then some ([], []) else none
  | c :: cs =>
    if pat.isPrefixOf (c :: cs) then some ([], (c :: cs).drop pat.length)
    else
      match splitFirst pat cs with
      | some (a, b) => some (c :: a, b)
      | none => none

/-- JS `s.replace(/lit/, rep)` for a literal (non-anchored) pattern:
replace the first occurrence only. -/
def replaceFirst (pat rep s : String) : String :=
  match splitFirst pat.data s.data with
  | some (a, b) => String.mk (a ++ rep.data ++ b)
  | none => s

/-- JS `s.replace(/^lit/, '')`: strip a leading literal pattern. -/
def stripLeading (pat s : String) : String :=
  if pat.data.isPrefixOf s.data then String.mk (s.data.drop pat.data.length) else s

/-- Split a character list on every occurrence of a separator character
(the structural analogue of `split('&')`). -/
def splitListOn (sep : Char) : List Char → List (List Char)
  | [] => [[]]
  | c :: cs =>
    if c = sep then [] :: splitListOn sep cs
    else
      match splitListOn sep cs with
      | [] => [[c]]
      | g :: gs => (c :: g) :: gs

/-- `URLSearchParams` parsing of a raw query (split on `&`, first `=`
separates the name; empty segments are skipped). -/
def parseQuery (q : List Char) : List (String × String) :=
  ((splitListOn '&' q).filter (fun kv => ¬ kv.isEmpty)).map (fun kv =>
    match splitFirst ['='] kv with
    | some (k, v) => (String.mk k, String.mk v)
    | none => (String.mk kv, ""))

/-- `new URL(s)` on the service's URL subset.  `none` models the constructor
throwing (malformed URL).  The WHATWG parser lowercases scheme and host. -/
def parseUrl (s : String) : Option UrlObj :=
  match splitFirst (("://").data) s.data with
  | none => none
  | some (sch, rest) =>
    if sch.isEmpty ∨ ¬ sch.all Char.isAlpha then none
    else
      let auth := rest.takeWhile (fun c => c ≠ '/' ∧ c ≠ '?' ∧ c ≠ '#')
      if auth.isEmpty ∨ auth.contains '@' ∨ auth.contains ':' then none
      else
        let rest2 := rest.drop auth.length
        let path := rest2.takeWhile (fun c => c ≠ '?' ∧ c ≠ '#')
        let rest3 := rest2.drop path.length
        let query :=
          match rest3 with
          | '?' :: qs => qs.takeWhile (fun c => c ≠ '#')
          | _ => []
        let frag :=
          match rest3.dropWhile (fun c => c ≠ '#') with
          | '#' :: fs => fs
          | _ => []
        some { scheme := String.mk (sch.map Char.toLower),
               host := String.mk (auth.map Char.toLower),
               path := if path.isEmpty then ("/") else String.mk path,
               params := parseQuery query,
               fragment := String.mk frag }

/-- `url.toString()` on the subset (a special-scheme URL serializes an empty
path as `/`; an empty query or fragment serializes to nothing). -/
def serializeUrl (u : UrlObj) : String :=
  u.scheme ++ ("://") ++ u.host ++ (if u.path = "" then ("/") else u.path) ++
  (match u.params with
   | [] => ("")
   | ps => ("?") ++ String.intercalate ("&") (ps.map (fun p => p.1 ++ ("=") ++ p.2))) ++
  (if u.fragment = "" then ("") else ("#") ++ u.fragment)

/-- The fixed tracking-parameter deny list of `normalizeUrl`. -/
def trackingParams : List String :=
  [("utm_source"), ("utm_medium"), ("utm_campaign"), ("utm_term"),
   ("utm_content"), ("fbclid"), ("gclid"), ("ref"), ("source"), ("medium"),
   ("campaign"), ("_ga"), ("_gl"), ("mc_cid"), ("mc_eid"), ("igshid"),
   ("twclid")]

/-- The body of `normalizeUrl` on the parsed object, step for step:
lowercase hostname; delete tracking parameters; strip the fragment; drop a
single trailing slash from a non-root path; then run the four mobile
patterns — `/^m\./ → ''`, `/\.m\./ → '.'`, `/\/mobile\// → '/'`,
`/\/m\// → '/'` — each applied to the HOSTNAME (`let hostname =
urlObj.hostname; ... urlObj.hostname = hostname`), exactly as the source
does. -/
def normalizeUrlObj (u : UrlObj) : UrlObj :=
  let u := { u with host := jsLower u.host }
  let u := { u with params := u.params.filter (fun p => ¬ trackingParams.contains p.1) }
  let u := { u with fragment := ("") }
  let pathname :=
    if u.path.data.length > 1 ∧ u.path.data.getLast? = some '/' then
      String.mk u.path.data.dropLast
    else u.path
  let u := { u with path := pathname }
  let hostname := u.host
  let hostname := stripLeading ("m.") hostname
  let hostname := replaceFirst (".m.") (".") hostname
  let hostname := replaceFirst ("/mobile/") ("/") hostname
  let hostname := replaceFirst ("/m/") ("/") hostname
  { u with host := hostname }

/-- `normalizeUrl(url)`: parse, normalize, serialize; on a malformed URL the
catch branch returns the input unchanged. -/
def normalizeUrl (url : String) : String :=
  match parseUrl url with
  | some u => serializeUrl (normalizeUrlObj u)
  | none => url

/-! ## The expiring key/value store

The remote Redis instance, embedded as explicit state: an association list
of (key, value, TTL-seconds-at-write).  The two JSON record shapes the code
ever writes (`ArticleSummary` under `article:` keys, the prediction
correlation record under `prediction:` keys) are stored as typed values;
`JSON.parse` of a value of the wrong shape is mapped to the handler's
thrown-error branch. -/

/-- The stored article summary object (webhook-handler.ts `ArticleSummary`). -/
structure ArticleSummary where
  summary : String
  headline : String
  model : String
  generatedAt : Nat
deriving DecidableEq, Repr

/-- The correlation record stored under `prediction:` keys
(`\x7bhash, headline, normalizedUrl\x7d`). -/
structure PredictionData where
  hash : String
  headline : String
  normalizedUrl : String
deriving DecidableEq, Repr

/-- A stored value: a plain string, or one of the two JSON record shapes. -/
inductive StoreVal where
  | str (s : String)
  | article (a : ArticleSummary)
  | prediction (p : PredictionData)
deriving DecidableEq, Repr

/-- The store: (key, value, TTL seconds) entries, first match wins. -/
abbrev Store := List (String × StoreVal × Nat)

/-- Look up a key, returning value and TTL. -/
def storeGetEntry (s : Store) (k : String) : Option (StoreVal × Nat) :=
  (s.find? (fun e => e.1 == k)).map (fun e => e.2)

/-- Redis `GET`. -/
def storeGet (s : Store) (k : String) : Option StoreVal :=
  (storeGetEntry s k).map (fun e => e.1)

/-- Redis `GET` where the code consumes the value as a plain string (URL
index and lock entries; such keys only ever receive string writes). -/
def storeGetStr (s : Store) (k : String) : Option String :=
  match storeGet s k with
  | some (.str v) => some v
  | _ => none

/-- Redis `SET key value EX ttl` (unconditional overwrite). -/
def storeSet (s : Store) (k : String) (v : StoreVal) (ttl : Nat) : Store :=
  (k, v, ttl) :: s.filter (fun e => e.1 != k)

/-- Redis `DEL key`. -/
def storeDel (s : Store) (k : String) : Store :=
  s.filter (fun e => e.1 != k)

/-- Redis `SET key value NX EX ttl`: atomic create-if-absent; returns
whether the key was created, and the store afterwards. -/
def storeSetnx (s : Store) (k : String) (v : StoreVal) (ttl : Nat) :
    Bool × Store :=
  match storeGet s k with
  | some _ => (false, s)
  | none => (true, (k, v, ttl) :: s)

/-! ## Redis client failure policy (domain/redis-client.ts)

Each operation wraps one `executeCommand` call (the Upstash REST
transport).  The embedding takes the transport outcome as a parameter:
`.ok r` is a decoded REST reply, `.error e` is a thrown transport error
(non-2xx response or network failure).  The result type is what the CALLER
observes: `.ok b` is a normal return, `.error` would be a propagated
exception. -/

/-- A decoded Upstash REST reply (`result` field). -/
inductive UpstashResult where
  | str (s : String)
  | nul
  | num (n : Nat)
deriving DecidableEq, Repr

/-- Is the reply the string `OK`? (`result.result === 'OK'`). -/
def isOkReply : UpstashResult → Bool
  | .str s => s == ("OK")
  | _ => false

/-- `get(key)`: a transport failure is caught, logged and returned as
`null` (treated as not-found). -/
def redisGet (_key : String) (transport : Except String UpstashResult) :
    Except String (Option String) :=
  match transport with
  | .ok (.str s) => .ok (if s = "" then none else some s)
  | .ok _ => .ok none
  | .error _ => .ok none

/-- `set(key, value, ttl)`: returns `result.result === 'OK'`; the catch
branch logs a transport failure and returns `false`. -/
def redisSet (_key _value : String) (_ttl : Option Nat)
    (transport : Except String UpstashResult) : Except String Bool :=
  match transport with
  | .ok r => .ok (isOkReply r)
  | .error _ => .ok false

/-- `setnx(key, value, ttl)` (`SET ... NX EX ...`): `null` reply means the
key already existed; the catch branch logs a transport failure and returns
`false`. -/
def redisSetnx (_key _value : String) (_ttl : Nat)
    (transport : Except String UpstashResult) : Except String Bool :=
  match transport with
  | .ok r => .ok (isOkReply r)
  | .error _ => .ok false

/-- `del(key)`: returns `result.result > 0`; the catch branch logs a
transport failure and returns `false`. -/
def redisDel (_key : String) (transport : Except String UpstashResult) :
    Except String Bool :=
  match transport with
  | .ok (.num n) => .ok (decide (n > 0))
  | .ok _ => .ok false
  | .error _ => .ok false

/-! ## Generate handler (routers/generate-summary.ts `handleGenerateSummary`)

Collaborators become parameters: `ext` is `extractContentSafe(html, url,
snippet)` (total — its implementation catches internally and falls back to
the snippet), `provider` is the outcome of
`replicate.createPrediction(text, headline)` (`.ok id` acceptance with a
prediction id, `.error e` a synchronous throw).  The output records the
response, the store afterwards, and an effect trace: whether the dedup
`setnx` was executed and its result, and whether the provider was invoked. -/

/-- The parsed generate request body. -/
structure GenerateSummaryRequest where
  url : Option String
  headline : Option String
  html : Option String
  snippet : Option String
deriving DecidableEq, Repr

/-- The response of the generate handler, one constructor per `return`. -/
inductive GenResponse where
  | missingUrl
  | complete (summary headline : String) (generatedAt : Nat) (hash : String)
  | pending (hash : String)
  | processing (hash predictionId : String)
  | noContent
  | internalError (msg : String)
deriving DecidableEq, Repr

/-- Result of one generate invocation: response, store afterwards, whether
the dedup conditional-set ran (and its result), whether the provider was
invoked. -/
structure GenOut where
  resp : GenResponse
  store : Store
  lockAttempt : Option Bool
  providerCalled : Bool
deriving DecidableEq, Repr

/-- Steps 2-3 of the handler: the extracted text (`body.snippet || ''`,
replaced by `extractContentSafe(body.html, normalizedUrl, body.snippet)`
when `body.html` is truthy). -/
def extractedTextOf (body : GenerateSummaryRequest)
    (ext : String → String → Option String → String)
    (normalizedUrl : String) : String :=
  if jsTruthy body.html then ext (jsOrOpt body.html "") normalizedUrl body.snippet
  else jsOrOpt body.snippet ""

/-- `handleGenerateSummary`, step for step.  The `afterUrlIndex` and
`afterHashCache` continuations are the code past the two early-return cache
checks. -/
def handleGenerateSummary (body : GenerateSummaryRequest)
    (ext : String → String → Option String → String)
    (provider : Except String String) (store : Store) : GenOut :=
  if jsTruthy body.url = false then
    { resp := .missingUrl, store := store, lockAttempt := none,
      providerCalled := false }
  else
    let normalizedUrl := normalizeUrl (jsOrOpt body.url "")
    let urlKey := ("url:") ++ normalizedUrl
    -- Steps 2-6, reached when the URL-index fast path does not return
    let afterUrlIndex : GenOut :=
      let extractedText := extractedTextOf body ext normalizedUrl
      let hash := generateContentHash normalizedUrl (jsOrOpt body.headline "")
        (jsTake extractedText 300)
      let articleKey := ("article:") ++ hash
      -- Steps 5-6, reached when the by-hash cache check does not return
      let afterHashCache : GenOut :=
        let lockKey := ("lock:") ++ hash
        let acq := storeSetnx store lockKey (.str ("1")) 60
        if acq.1 = false then
          { resp := .pending hash, store := acq.2, lockAttempt := some false,
            providerCalled := false }
        else
          let text := jsOr extractedText (jsOrOpt body.snippet "")
          if jsTrim text = "" then
            { resp := .noContent, store := storeDel acq.2 lockKey,
              lockAttempt := some true, providerCalled := false }
          else
            match provider with
            | .error e =>
              { resp := .internalError e, store := storeDel acq.2 lockKey,
                lockAttempt := some true, providerCalled := true }
            | .ok pid =>
              let predictionKey := ("prediction:") ++ pid
              let s3 := storeSet acq.2 predictionKey
                (.prediction { hash := hash, headline := jsOrOpt body.headline "",
                               normalizedUrl := normalizedUrl }) 3600
              { resp := .processing hash pid, store := s3,
                lockAttempt := some true, providerCalled := true }
      match storeGet store articleKey with
      | some (.article a) =>
        { resp := .complete a.summary a.headline a.generatedAt hash,
          store := storeSet store urlKey (.str hash) 604800,
          lockAttempt := none, providerCalled := false }
      | some _ =>
        { resp := .internalError ("parse"), store := store,
          lockAttempt := none, providerCalled := false }
      | none => afterHashCache
    match storeGetStr store urlKey with
    | some s =>
      if s = "" then afterUrlIndex
      else
        match storeGet store (("article:") ++ s) with
        | some (.article a) =>
          { resp := .complete a.summary a.headline a.generatedAt s,
            store := store, lockAttempt := none, providerCalled := false }
        | some _ =>
          { resp := .internalError ("parse"), store := store,
            lockAttempt := none, providerCalled := false }
        | none => afterUrlIndex
    | none => afterUrlIndex

/-! ## Fetch handler (routers/fetch-summary.ts `handleFetchSummary`) -/

/-- The response of the fetch handler, one constructor per `return`. -/
inductive FetchResponse where
  | missingParams
  | unknownNoHash
  | complete (summary headline : String) (generatedAt : Nat) (hash : String)
  | pending (hash : String)
  | unknownWithHash (hash : String)
  | internalError (msg : String)
deriving DecidableEq, Repr

/-- `handleFetchSummary` on query parameters `url` and `hash`
(`searchParams.get` results; read-only, so only the response is returned). -/
def handleFetchSummary (urlParam hashParam : Option String) (store : Store) :
    FetchResponse :=
  if jsTruthy urlParam = false ∧ jsTruthy hashParam = false then .missingParams
  else
    let h : Option String :=
      if jsTruthy hashParam then hashParam
      else if jsTruthy urlParam then
        storeGetStr store (("url:") ++ normalizeUrl (jsOrOpt urlParam ""))
      else none
    if jsTruthy h = false then .unknownNoHash
    else
      let hv := jsOrOpt h ""
      match storeGet store (("article:") ++ hv) with
      | some (.article a) => .complete a.summary a.headline a.generatedAt hv
      | some _ => .internalError ("parse")
      | none =>
        if jsTruthy (storeGetStr store (("lock:") ++ hv)) then .pending hv
        else .unknownWithHash hv

/-! ## Webhook handler (routers/webhook-handler.ts `handleWebhook`) -/

/-- The provider's callback `output` field: a string or a string sequence. -/
inductive JsOutput where
  | str (s : String)
  | arr (l : List String)
deriving DecidableEq, Repr

/-- JS truthiness of the optional `output` field: `undefined`/`null` and
the empty string are falsy; an array — even an empty one — is truthy. -/
def jsTruthyOutput : Option JsOutput → Bool
  | none => false
  | some (.str s) => s != ""
  | some (.arr _) => true

/-- `Array.isArray(output) ? output.join('\n') : String(output)`. -/
def joinOutput : JsOutput → String
  | .str s => s
  | .arr l => String.intercalate ("\n") l

/-- The parsed webhook callback payload. -/
structure ReplicateWebhookPayload where
  id : String
  status : String
  output : Option JsOutput
  error : Option String
deriving DecidableEq, Repr

/-- The response of the webhook handler, one constructor per `return`. -/
inductive WebhookResponse where
  | unknownPrediction
  | stored
  | failed (error : Option String)
  | ignored
  | internalError (msg : String)
deriving DecidableEq, Repr

/-- `handleWebhook`, step for step.  `now` is `Date.now()` at the single
point the code reads it. -/
def handleWebhook (payload : ReplicateWebhookPayload) (now : Nat)
    (store : Store) : WebhookResponse × Store :=
  let predictionKey := ("prediction:") ++ payload.id
  match storeGet store predictionKey with
  | none => (.unknownPrediction, store)
  | some (.prediction pd) =>
    let hash := pd.hash
    let headline := jsOr pd.headline ("Article Summary")
    let normalizedUrl := pd.normalizedUrl
    if payload.status = ("succeeded") ∧ jsTruthyOutput payload.output then
      let summaryText :=
        match payload.output with
        | some o => joinOutput o
        | none => ""
      let summary : ArticleSummary :=
        { summary := jsTrim summaryText, headline := headline,
          model := ("google-deepmind/gemma-2b"), generatedAt := now }
      let articleKey := ("article:") ++ hash
      let s1 := storeSet store articleKey (.article summary) 604800
      let s2 :=
        if normalizedUrl ≠ "" then
          storeSet s1 (("url:") ++ normalizedUrl) (.str hash) 604800
        else s1
      let s3 := storeDel s2 predictionKey
      let s4 := storeDel s3 (("lock:") ++ hash)
      (.stored, s4)
    else if payload.status = ("failed") then
      let s1 := storeDel store (("lock:") ++ hash)
      let s2 := storeDel s1 predictionKey
      (.failed payload.error, s2)
    else
      (.ignored, store)
  | some _ => (.internalError ("parse"), store)

/-! ## Spec-side definitions (for refinement-style claims) -/

/-- Modelled from the spec, fetch transition step 1: the fingerprint is
resolved either directly (caller supplies it) or via the URL Index Entry
lookup; a caller-supplied value wins. -/
def resolvedFingerprint (urlParam hashParam : Option String) (store : Store) :
    Option String :=
  if jsTruthy hashParam then hashParam
  else if jsTruthy urlParam then
    storeGetStr store (("url:") ++ normalizeUrl (jsOrOpt urlParam ""))
  else none

/-- The two mobile collapses that can actually fire on a hostname: strip a
leading `m.` label, then turn the first `.m.` infix into `.` — the
slash-containing patterns of the source's list cannot match a hostname. -/
def collapseMobileHost (host : String) : String :=
  replaceFirst (".m.") (".") (stripLeading ("m.") host)

/-! ## Helper lemmas: strings and keys

The four key namespaces the code uses (`article:`, `url:`, `lock:`,
`prediction:`) start with pairwise distinct characters, so keys from
different namespaces never collide, whatever the suffixes are. -/

theorem string_data_append (a b : String) : (a ++ b).data = a.data ++ b.data := by
  cases a
  cases b
  rfl

theorem append_ne_of_head_ne {c1 c2 : Char} (a b x y : String)
    (ha : a.data.head? = some c1) (hb : b.data.head? = some c2)
    (hne : c1 ≠ c2) : a ++ x ≠ b ++ y := by
  intro e
  have hd := congrArg String.data e
  rw [string_data_append, string_data_append] at hd
  cases ha2 : a.data with
  | nil => rw [ha2] at ha; cases ha
  | cons c t =>
    cases hb2 : b.data with
    | nil => rw [hb2] at hb; cases hb
    | cons c' t' =>
      rw [ha2] at ha hd
      rw [hb2] at hb hd
      simp only [List.head?_cons, Option.some.injEq] at ha hb
      simp only [List.cons_append, List.cons.injEq] at hd
      exact hne (ha ▸ hb ▸ hd.1)

/-! ## Helper lemmas: the store -/

theorem storeGetEntry_cons_self (e : String × StoreVal × Nat) (s : Store)
    (k : String) (h : e.1 = k) : storeGetEntry (e :: s) k = some e.2 := by
  unfold storeGetEntry
  rw [List.find?_cons_of_pos _ (by simp [h])]
  rfl

theorem storeGetEntry_cons_ne (e : String × StoreVal × Nat) (s : Store)
    (k : String) (h : ¬ e.1 = k) : storeGetEntry (e :: s) k = storeGetEntry s k := by
  unfold storeGetEntry
  rw [List.find?_cons_of_neg _ (by simp [h])]

theorem storeGetEntry_filter_ne (s : Store) (k k' : String) (h : k' ≠ k) :
    storeGetEntry (s.filter (fun e => e.1 != k)) k' = storeGetEntry s k' := by
  induction s with
  | nil => rfl
  | cons e s ih =>
    by_cases he : e.1 = k
    · rw [show List.filter (fun e => e.1 != k) (e :: s) =
            List.filter (fun e => e.1 != k) s from by simp [List.filter_cons, he]]
      rw [ih, storeGetEntry_cons_ne e s k' (fun hh => (Ne.symm h) (he.symm.trans hh))]
    · rw [show List.filter (fun e => e.1 != k) (e :: s) =
            e :: List.filter (fun e => e.1 != k) s from by simp [List.filter_cons, he]]
      by_cases hk' : e.1 = k'
      · rw [storeGetEntry_cons_self e _ k' hk', storeGetEntry_cons_self e s k' hk']
      · rw [storeGetEntry_cons_ne e _ k' hk', storeGetEntry_cons_ne e s k' hk', ih]

theorem storeGetEntry_filter_self (s : Store) (k : String) :
    storeGetEntry (s.filter (fun e => e.1 != k)) k = none := by
  induction s with
  | nil => rfl
  | cons e s ih =>
    by_cases he : e.1 = k
    · rw [show List.filter (fun e => e.1 != k) (e :: s) =
            List.filter (fun e => e.1 != k) s from by simp [List.filter_cons, he]]
      exact ih
    · rw [show List.filter (fun e => e.1 != k) (e :: s) =
            e :: List.filter (fun e => e.1 != k) s from by simp [List.filter_cons, he]]
      rw [storeGetEntry_cons_ne e _ k he]
      exact ih

theorem storeGetEntry_set_self (s : Store) (k : String) (v : StoreVal) (t : Nat) :
    storeGetEntry (storeSet s k v t) k = some (v, t) := by
  unfold storeSet
  exact storeGetEntry_cons_self _ _ k rfl

theorem storeGetEntry_set_ne (s : Store) (k k' : String) (v : StoreVal) (t : Nat)
    (h : k' ≠ k) :
    storeGetEntry (storeSet s k v t) k' = storeGetEntry s k' := by
  unfold storeSet
  rw [storeGetEntry_cons_ne _ _ k' (fun hh => h hh.symm)]
  exact storeGetEntry_filter_ne s k k' h

theorem storeGetEntry_del_self (s : Store) (k : String) :
    storeGetEntry (storeDel s k) k = none :=
  storeGetEntry_filter_self s k

theorem storeGetEntry_del_ne (s : Store) (k k' : String) (h : k' ≠ k) :
    storeGetEntry (storeDel s k) k' = storeGetEntry s k' :=
  storeGetEntry_filter_ne s k k' h

theorem storeGet_set_self (s : Store) (k : String) (v : StoreVal) (t : Nat) :
    storeGet (storeSet s k v t) k = some v := by
  simp [storeGet, storeGetEntry_set_self]

theorem storeGet_set_ne (s : Store) (k k' : String) (v : StoreVal) (t : Nat)
    (h : k' ≠ k) : storeGet (storeSet s k v t) k' = storeGet s k' := by
  simp [storeGet, storeGetEntry_set_ne s k k' v t h]

theorem storeGet_del_self (s : Store) (k : String) :
    storeGet (storeDel s k) k = none := by
  simp [storeGet, storeGetEntry_del_self]

theorem storeGet_del_ne (s : Store) (k k' : String) (h : k' ≠ k) :
    storeGet (storeDel s k) k' = storeGet s k' := by
  simp [storeGet, storeGetEntry_del_ne s k k' h]

theorem storeSetnx_fst (s : Store) (k : String) (v : StoreVal) (t : Nat) :
    (storeSetnx s k v t).1 = (storeGet s k).isNone := by
  cases h : storeGet s k <;> simp [storeSetnx, h]

theorem articleKey_ne_urlKey (a u : String) : ("article:") ++ a ≠ ("url:") ++ u :=
  append_ne_of_head_ne _ _ _ _ rfl rfl (by decide)

theorem articleKey_ne_lockKey (a u : String) : ("article:") ++ a ≠ ("lock:") ++ u :=
  append_ne_of_head_ne _ _ _ _ rfl rfl (by decide)

theorem articleKey_ne_predictionKey (a u : String) : ("article:") ++ a ≠ ("prediction:") ++ u :=
  append_ne_of_head_ne _ _ _ _ rfl rfl (by decide)

theorem urlKey_ne_lockKey (a u : String) : ("url:") ++ a ≠ ("lock:") ++ u :=
  append_ne_of_head_ne _ _ _ _ rfl rfl (by decide)

theorem urlKey_ne_predictionKey (a u : String) : ("url:") ++ a ≠ ("prediction:") ++ u :=
  append_ne_of_head_ne _ _ _ _ rfl rfl (by decide)

theorem lockKey_ne_predictionKey (a u : String) : ("lock:") ++ a ≠ ("prediction:") ++ u :=
  append_ne_of_head_ne _ _ _ _ rfl rfl (by decide)

/-- Claim C3: on a `succeeded` callback carrying output, the Completion
Handler builds the Cache Entry (joining a sequence output with newlines),
writes it under `article:` + fingerprint with a 7-day TTL (604800 s), writes
the URL Index Entry with the same TTL when a normalized URL was recorded in
the Correlation Entry, deletes the Correlation Entry and the Dedup Lock, and
acknowledges with stored:true. -/
theorem webhook_success_finalizes (payload : ReplicateWebhookPayload)
    (pd : PredictionData) (now : Nat) (store : Store)
    (hpred : storeGet store (("prediction:") ++ payload.id) = some (.prediction pd))
    (hst : payload.status = ("succeeded"))
    (hout : jsTruthyOutput payload.output = true) :
    (handleWebhook payload now store).1 = .stored
    ∧ storeGetEntry (handleWebhook payload now store).2 (("article:") ++ pd.hash) =
        some (.article { summary := jsTrim (match payload.output with
                           | some o => joinOutput o
                           | none => ""),
                         headline := jsOr pd.headline ("Article Summary"),
                         model := ("google-deepmind/gemma-2b"), generatedAt := now }, 604800)
    ∧ (pd.normalizedUrl ≠ "" →
        storeGetEntry (handleWebhook payload now store).2 (("url:") ++ pd.normalizedUrl) =
          some (.str pd.hash, 604800))
    ∧ storeGet (handleWebhook payload now store).2 (("prediction:") ++ payload.id) = none
    ∧ storeGet (handleWebhook payload now store).2 (("lock:") ++ pd.hash) = none := by
  simp only [handleWebhook, hpred]
  rw [if_pos ⟨hst, hout⟩]
  refine ⟨rfl, ?_, ?_, ?_, ?_⟩
  · rw [storeGetEntry_del_ne _ _ _ (articleKey_ne_lockKey _ _),
        storeGetEntry_del_ne _ _ _ (articleKey_ne_predictionKey _ _)]
    by_cases hurl : pd.normalizedUrl = ""
    · rw [if_neg (by simp [hurl])]
      exact storeGetEntry_set_self _ _ _ _
    · rw [if_pos hurl,
          storeGetEntry_set_ne _ _ _ _ _ (articleKey_ne_urlKey _ _),
          storeGetEntry_set_self]
  · intro hurl
    rw [storeGetEntry_del_ne _ _ _ (urlKey_ne_lockKey _ _),
        storeGetEntry_del_ne _ _ _ (urlKey_ne_predictionKey _ _),
        if_pos hurl, storeGetEntry_set_self]
  · rw [storeGet_del_ne _ _ _ (Ne.symm (lockKey_ne_predictionKey _ _)),
        storeGet_del_self]
  · exact storeGet_del_self _ _

/-- Claim C7: on a `failed` callback with a known jobId, the Completion
Handler deletes both the Dedup Lock and the Correlation Entry and
acknowledges (the provider error is carried in the ack, not raised), so the
lock key is absent afterwards and a subsequent conditional-set on it
succeeds immediately. -/
theorem webhook_failed_releases (payload : ReplicateWebhookPayload)
    (pd : PredictionData) (now : Nat) (store : Store)
    (hpred : storeGet store (("prediction:") ++ payload.id) = some (.prediction pd))
    (hst : payload.status = ("failed")) :
    handleWebhook payload now store =
      (.failed payload.error,
       storeDel (storeDel store (("lock:") ++ pd.hash)) (("prediction:") ++ payload.id))
    ∧ storeGet (handleWebhook payload now store).2 (("lock:") ++ pd.hash) = none
    ∧ storeGet (handleWebhook payload now store).2 (("prediction:") ++ payload.id) = none
    ∧ (∀ v t, (storeSetnx (handleWebhook payload now store).2 (("lock:") ++ pd.hash) v t).1 = true) := by
  have hne : ¬ (payload.status = ("succeeded") ∧ jsTruthyOutput payload.output = true) := by
    rw [hst];intro hc; exact absurd hc.1 (by decide)
  simp only [handleWebhook, hpred]
  rw [if_neg hne, if_pos hst]
  have hlock : storeGet (storeDel (storeDel store (("lock:") ++ pd.hash)) (("prediction:") ++ payload.id)) (("lock:") ++ pd.hash) = none := by
    rw [storeGet_del_ne _ _ _ (lockKey_ne_predictionKey _ _), storeGet_del_self]
  refine ⟨rfl, hlock, ?_, ?_⟩
  · rw [storeGet_del_self]
  · intro v t
    rw [storeSetnx_fst, hlock]
    rfl

/-- Claim C6: the Completion Handler is idempotent: with an absent
Correlation Entry it acknowledges with a warning and leaves the store
untouched; consequently a second callback for a jobId whose first callback
stored the summary produces the warning acknowledgment and leaves the store
(and so the Cache Entry) unchanged. -/
theorem webhook_idempotent (payload : ReplicateWebhookPayload)
    (now now2 : Nat) (store : Store) :
    (storeGet store (("prediction:") ++ payload.id) = none →
      handleWebhook payload now store = (.unknownPrediction, store))
    ∧ ((handleWebhook payload now store).1 = .stored →
      handleWebhook payload now2 (handleWebhook payload now store).2 =
        (.unknownPrediction, (handleWebhook payload now store).2)) := by
  have habs : ∀ (n : Nat) (st : Store),
      storeGet st (("prediction:") ++ payload.id) = none →
      handleWebhook payload n st = (.unknownPrediction, st) := by
    intro n st h
    simp only [handleWebhook, h]
  refine ⟨habs now store, ?_⟩
  intro hstored
  have habs2 : storeGet (handleWebhook payload now store).2 (("prediction:") ++ payload.id) = none := by
    cases hpred : storeGet store (("prediction:") ++ payload.id) with
    | none => simp only [handleWebhook, hpred] at hstored; cases hstored
    | some v =>
      cases v with
      | str s => simp only [handleWebhook, hpred] at hstored; cases hstored
      | article a => simp only [handleWebhook, hpred] at hstored; cases hstored
      | prediction pd =>
        by_cases hc : payload.status = ("succeeded") ∧ jsTruthyOutput payload.output = true
        · simp only [handleWebhook, hpred]
          rw [if_pos hc]
          rw [storeGet_del_ne _ _ _ (Ne.symm (lockKey_ne_predictionKey _ _)),
              storeGet_del_self]
        · by_cases hf : payload.status = ("failed")
          · simp only [handleWebhook, hpred]
            rw [if_neg hc, if_pos hf, storeGet_del_self]
          · simp only [handleWebhook, hpred] at hstored
            rw [if_neg hc, if_neg hf] at hstored
            cases hstored
  exact habs now2 _ habs2


/-- Claim C10 (amended): a `succeeded` callback whose output is absent or
the empty string falls through to the plain acknowledgment and leaves the
store entirely unchanged.  (An empty ARRAY output, being truthy in JS, is
excluded: it takes the success path — see the counterexample.) -/
theorem webhook_nonactionable_output_frame (payload : ReplicateWebhookPayload)
    (now : Nat) (store : Store)
    (hst : payload.status = ("succeeded"))
    (hout : payload.output = none ∨ payload.output = some (.str (""))) :
    (handleWebhook payload now store).2 = store := by
  have hto : jsTruthyOutput payload.output = false := by
    rcases hout with h | h <;> rw [h] <;> rfl
  have hc : ¬ (payload.status = ("succeeded") ∧ jsTruthyOutput payload.output = true) := by
    intro hcc
    rw [hto] at hcc
    exact Bool.noConfusion hcc.2
  have hf : ¬ payload.status = ("failed") := by
    rw [hst]
    decide
  cases hpred : storeGet store (("prediction:") ++ payload.id) with
  | none => simp only [handleWebhook, hpred]
  | some v =>
    cases v with
    | str s => simp only [handleWebhook, hpred]
    | article a => simp only [handleWebhook, hpred]
    | prediction pd =>
      simp only [handleWebhook, hpred]
      rw [if_neg hc, if_neg hf]

/-- Counterexample to C10 as stated: a `succeeded` callback with an empty
ARRAY output is truthy in JS, so it takes the success path: it mutates the
store — an empty-summary Cache Entry is written and the Dedup Lock is
deleted — contradicting the claim that an empty output leaves the store
unchanged with the fingerprint still locked. -/
theorem webhook_empty_array_output_writes :
    (handleWebhook
        { id := ("p1"), status := ("succeeded"), output := some (.arr []),
          error := none } 0
        [(("prediction:p1"),
          .prediction { hash := ("h1"), headline := ("T"),
                        normalizedUrl := ("https://a.com/x") }, 3600),
         (("lock:h1"), .str ("1"), 60)]).2 ≠
      [(("prediction:p1"),
        .prediction { hash := ("h1"), headline := ("T"),
                      normalizedUrl := ("https://a.com/x") }, 3600),
       (("lock:h1"), .str ("1"), 60)]
    ∧ storeGet (handleWebhook
        { id := ("p1"), status := ("succeeded"), output := some (.arr []),
          error := none } 0
        [(("prediction:p1"),
          .prediction { hash := ("h1"), headline := ("T"),
                        normalizedUrl := ("https://a.com/x") }, 3600),
         (("lock:h1"), .str ("1"), 60)]).2 (("article:h1")) =
      some (.article { summary := (""), headline := ("T"),
                       model := ("google-deepmind/gemma-2b"), generatedAt := 0 })
    ∧ storeGet (handleWebhook
        { id := ("p1"), status := ("succeeded"), output := some (.arr []),
          error := none } 0
        [(("prediction:p1"),
          .prediction { hash := ("h1"), headline := ("T"),
                        normalizedUrl := ("https://a.com/x") }, 3600),
         (("lock:h1"), .str ("1"), 60)]).2 (("lock:h1")) = none := by
  refine ⟨by decide, by decide, by decide⟩


/-- Witness for C3: a concrete succeeded callback against a store holding
its Correlation Entry and lock. -/
theorem webhook_success_finalizes_witness :
    storeGet
      [(("prediction:p1"),
        .prediction { hash := ("h1"), headline := ("T"),
                      normalizedUrl := ("https://a.com/x") }, 3600),
       (("lock:h1"), .str ("1"), 60)]
      (("prediction:") ++ ("p1")) =
      some (.prediction { hash := ("h1"), headline := ("T"),
                          normalizedUrl := ("https://a.com/x") })
    ∧ (handleWebhook
        { id := ("p1"), status := ("succeeded"),
          output := some (.str ("Result text")), error := none } 7
        [(("prediction:p1"),
          .prediction { hash := ("h1"), headline := ("T"),
                        normalizedUrl := ("https://a.com/x") }, 3600),
         (("lock:h1"), .str ("1"), 60)]).1 = .stored := by
  refine ⟨by decide, (webhook_success_finalizes
    { id := ("p1"), status := ("succeeded"),
      output := some (.str ("Result text")), error := none }
    { hash := ("h1"), headline := ("T"), normalizedUrl := ("https://a.com/x") }
    7
    [(("prediction:p1"),
      .prediction { hash := ("h1"), headline := ("T"),
                    normalizedUrl := ("https://a.com/x") }, 3600),
     (("lock:h1"), .str ("1"), 60)]
    (by decide) rfl rfl).1⟩

/-- Witness for C6: a concrete succeeded callback delivered twice; the
second delivery is acknowledged as unknown and mutates nothing. -/
theorem webhook_idempotent_witness :
    (handleWebhook
        { id := ("p1"), status := ("succeeded"),
          output := some (.str ("Result text")), error := none } 0
        [(("prediction:p1"),
          .prediction { hash := ("h1"), headline := ("T"),
                        normalizedUrl := ("https://a.com/x") }, 3600)]).1 = .stored
    ∧ handleWebhook
        { id := ("p1"), status := ("succeeded"),
          output := some (.str ("Result text")), error := none } 1
        (handleWebhook
          { id := ("p1"), status := ("succeeded"),
            output := some (.str ("Result text")), error := none } 0
          [(("prediction:p1"),
            .prediction { hash := ("h1"), headline := ("T"),
                          normalizedUrl := ("https://a.com/x") }, 3600)]).2 =
      (.unknownPrediction,
       (handleWebhook
          { id := ("p1"), status := ("succeeded"),
            output := some (.str ("Result text")), error := none } 0
          [(("prediction:p1"),
            .prediction { hash := ("h1"), headline := ("T"),
                          normalizedUrl := ("https://a.com/x") }, 3600)]).2) := by
  refine ⟨by decide, (webhook_idempotent
    { id := ("p1"), status := ("succeeded"),
      output := some (.str ("Result text")), error := none } 0 1
    [(("prediction:p1"),
      .prediction { hash := ("h1"), headline := ("T"),
                    normalizedUrl := ("https://a.com/x") }, 3600)]).2 (by decide)⟩

/-- Witness for C7: a concrete failed callback; the ack carries the error
and the lock is re-acquirable. -/
theorem webhook_failed_releases_witness :
    storeGet
      [(("prediction:p1"),
        .prediction { hash := ("h1"), headline := ("T"),
                      normalizedUrl := ("https://a.com/x") }, 3600),
       (("lock:h1"), .str ("1"), 60)]
      (("prediction:") ++ ("p1")) =
      some (.prediction { hash := ("h1"), headline := ("T"),
                          normalizedUrl := ("https://a.com/x") })
    ∧ (handleWebhook
        { id := ("p1"), status := ("failed"), output := none,
          error := some (("Model timeout")) } 0
        [(("prediction:p1"),
          .prediction { hash := ("h1"), headline := ("T"),
                        normalizedUrl := ("https://a.com/x") }, 3600),
         (("lock:h1"), .str ("1"), 60)]).1 = .failed (some (("Model timeout")))
    ∧ (∀ v t, (storeSetnx (handleWebhook
        { id := ("p1"), status := ("failed"), output := none,
          error := some (("Model timeout")) } 0
        [(("prediction:p1"),
          .prediction { hash := ("h1"), headline := ("T"),
                        normalizedUrl := ("https://a.com/x") }, 3600),
         (("lock:h1"), .str ("1"), 60)]).2 (("lock:") ++ ("h1")) v t).1 = true) := by
  have h := webhook_failed_releases
    { id := ("p1"), status := ("failed"), output := none,
      error := some (("Model timeout")) }
    { hash := ("h1"), headline := ("T"), normalizedUrl := ("https://a.com/x") }
    0
    [(("prediction:p1"),
      .prediction { hash := ("h1"), headline := ("T"),
                    normalizedUrl := ("https://a.com/x") }, 3600),
     (("lock:h1"), .str ("1"), 60)]
    (by decide) rfl
  exact ⟨by decide, by rw [h.1], h.2.2.2⟩

/-- Witness for C10: a concrete succeeded callback with empty-string
output leaves the concrete store unchanged. -/
theorem webhook_nonactionable_output_frame_witness :
    (handleWebhook
        { id := ("p1"), status := ("succeeded"), output := some (.str ("")),
          error := none } 0
        [(("prediction:p1"),
          .prediction { hash := ("h1"), headline := ("T"),
                        normalizedUrl := ("https://a.com/x") }, 3600),
         (("lock:h1"), .str ("1"), 60)]).2 =
      [(("prediction:p1"),
        .prediction { hash := ("h1"), headline := ("T"),
                      normalizedUrl := ("https://a.com/x") }, 3600),
       (("lock:h1"), .str ("1"), 60)] :=
  webhook_nonactionable_output_frame
    { id := ("p1"), status := ("succeeded"), output := some (.str ("")),
      error := none } 0
    [(("prediction:p1"),
      .prediction { hash := ("h1"), headline := ("T"),
                    normalizedUrl := ("https://a.com/x") }, 3600),
     (("lock:h1"), .str ("1"), 60)] rfl (Or.inr rfl)


/-- Claim C1: in the generate operation the external provider is invoked
only when the Dedup Lock conditional-set was executed and returned acquired;
whenever the conditional-set returns not-acquired, the handler returns
status `pending` with the request's fingerprint and does not invoke the
provider. -/
theorem generate_lock_gates_provider (body : GenerateSummaryRequest)
    (ext : String → String → Option String → String)
    (provider : Except String String) (store : Store) :
    ((handleGenerateSummary body ext provider store).providerCalled = true →
      (handleGenerateSummary body ext provider store).lockAttempt = some true)
    ∧ ((handleGenerateSummary body ext provider store).lockAttempt = some false →
      (handleGenerateSummary body ext provider store).resp =
        .pending (generateContentHash (normalizeUrl (jsOrOpt body.url ""))
          (jsOrOpt body.headline "")
          (jsTake (extractedTextOf body ext (normalizeUrl (jsOrOpt body.url ""))) 300))
      ∧ (handleGenerateSummary body ext provider store).providerCalled = false) := by
  unfold handleGenerateSummary
  constructor
  · repeat' split <;> (try simp)
  · repeat' split <;> (try simp)


/-- Claim C2 (amended): for a generate request whose resolved text is
empty after all fallbacks and whose cache lookups miss, the provider is
never invoked; the handler first attempts the Dedup Lock conditional-set —
if the lock was acquired it deletes it again and returns the validation
error (`No content available for summarization`), and if it was not
acquired it returns `pending`. -/
theorem generate_empty_text_no_provider (body : GenerateSummaryRequest)
    (ext : String → String → Option String → String)
    (provider : Except String String) (store : Store)
    (hurl : jsTruthy body.url = true)
    (hidx : ∀ s, storeGetStr store (("url:") ++ normalizeUrl (jsOrOpt body.url "")) = some s →
      s ≠ "" → storeGet store (("article:") ++ s) = none)
    (hmiss : storeGet store (("article:") ++
      generateContentHash (normalizeUrl (jsOrOpt body.url "")) (jsOrOpt body.headline "")
        (jsTake (extractedTextOf body ext (normalizeUrl (jsOrOpt body.url ""))) 300)) = none)
    (htext : jsTrim (jsOr (extractedTextOf body ext (normalizeUrl (jsOrOpt body.url "")))
      (jsOrOpt body.snippet "")) = "") :
    (handleGenerateSummary body ext provider store).providerCalled = false
    ∧ (handleGenerateSummary body ext provider store).lockAttempt =
        some ((storeGet store (("lock:") ++
          generateContentHash (normalizeUrl (jsOrOpt body.url "")) (jsOrOpt body.headline "")
            (jsTake (extractedTextOf body ext (normalizeUrl (jsOrOpt body.url ""))) 300))).isNone)
    ∧ ((handleGenerateSummary body ext provider store).lockAttempt = some true →
        (handleGenerateSummary body ext provider store).resp = .noContent
        ∧ storeGet (handleGenerateSummary body ext provider store).store
            (("lock:") ++ generateContentHash (normalizeUrl (jsOrOpt body.url ""))
              (jsOrOpt body.headline "")
              (jsTake (extractedTextOf body ext (normalizeUrl (jsOrOpt body.url ""))) 300)) = none)
    ∧ ((handleGenerateSummary body ext provider store).lockAttempt = some false →
        (handleGenerateSummary body ext provider store).resp =
          .pending (generateContentHash (normalizeUrl (jsOrOpt body.url ""))
            (jsOrOpt body.headline "")
            (jsTake (extractedTextOf body ext (normalizeUrl (jsOrOpt body.url ""))) 300))) := by
  have hcond : ¬ (jsTruthy body.url = false) := by
    rw [hurl]
    decide
  refine ⟨?_, ?_, ?_, ?_⟩ <;>
    (unfold handleGenerateSummary
     rw [if_neg hcond]
     repeat' split <;> try simp_all [storeSetnx_fst, storeGet_del_self])


/-- Witness for C1: a concrete request on an empty store invokes the
provider, and indeed its conditional-set returned acquired. -/
theorem generate_lock_gates_provider_witness :
    (handleGenerateSummary
        { url := some ("https://a.com/x"), headline := some ("H"), html := none,
          snippet := some ("S") }
        (fun _ _ sn => jsOrOpt sn "") (.ok ("j")) []).providerCalled = true
    ∧ (handleGenerateSummary
        { url := some ("https://a.com/x"), headline := some ("H"), html := none,
          snippet := some ("S") }
        (fun _ _ sn => jsOrOpt sn "") (.ok ("j")) []).lockAttempt = some true := by
  refine ⟨rfl, (generate_lock_gates_provider
    { url := some ("https://a.com/x"), headline := some ("H"), html := none,
      snippet := some ("S") }
    (fun _ _ sn => jsOrOpt sn "") (.ok ("j")) []).1 rfl⟩

/-- Counterexample to C2 as stated: a concrete request whose resolved
text is the empty string after all fallbacks still ATTEMPTS the Dedup Lock
conditional-set (and acquires it) before returning the validation error —
the claim said lock acquisition is never attempted. -/
theorem generate_empty_text_attempts_lock :
    jsOr (extractedTextOf
        { url := some ("https://a.com/x"), headline := none, html := none,
          snippet := none }
        (fun _ _ sn => jsOrOpt sn "") (normalizeUrl ("https://a.com/x")))
      (jsOrOpt none "") = ""
    ∧ (handleGenerateSummary
        { url := some ("https://a.com/x"), headline := none, html := none,
          snippet := none }
        (fun _ _ sn => jsOrOpt sn "") (.ok ("j")) []).lockAttempt = some true
    ∧ (handleGenerateSummary
        { url := some ("https://a.com/x"), headline := none, html := none,
          snippet := none }
        (fun _ _ sn => jsOrOpt sn "") (.ok ("j")) []).resp = .noContent :=
  ⟨rfl, rfl, rfl⟩

/-- Witness for C2: a concrete empty-text request against the empty store
returns the validation error without a provider call. -/
theorem generate_empty_text_no_provider_witness :
    jsTrim (jsOr (extractedTextOf
        { url := some ("https://a.com/x"), headline := none, html := none,
          snippet := none }
        (fun _ _ sn => jsOrOpt sn "")
        (normalizeUrl (jsOrOpt (some ("https://a.com/x")) "")))
      (jsOrOpt none "")) = ""
    ∧ (handleGenerateSummary
        { url := some ("https://a.com/x"), headline := none, html := none,
          snippet := none }
        (fun _ _ sn => jsOrOpt sn "") (.ok ("j")) []).resp = .noContent
    ∧ (handleGenerateSummary
        { url := some ("https://a.com/x"), headline := none, html := none,
          snippet := none }
        (fun _ _ sn => jsOrOpt sn "") (.ok ("j")) []).providerCalled = false := by
  have h := generate_empty_text_no_provider
    { url := some ("https://a.com/x"), headline := none, html := none,
      snippet := none }
    (fun _ _ sn => jsOrOpt sn "") (.ok ("j")) [] rfl
    (fun s hs _ => absurd hs (by simp [storeGetStr, storeGet, storeGetEntry]))
    rfl rfl
  exact ⟨rfl, (h.2.2.1 h.2.1).1, h.1⟩


/-- Claim C8: a fetch query (with at least one parameter supplied) is
decided in this case order: no resolvable fingerprint → `unknown`;
else Cache Entry present → `complete` with its data; else Dedup Lock
present → `pending`; else `unknown`.  `resolvedFingerprint` is the
spec-side resolver (caller-supplied hash first, else URL Index lookup). -/
theorem fetch_case_order (u h : Option String) (store : Store)
    (hp : jsTruthy u = true ∨ jsTruthy h = true) :
    (jsTruthy (resolvedFingerprint u h store) = false →
      handleFetchSummary u h store = .unknownNoHash)
    ∧ (∀ fp a, resolvedFingerprint u h store = some fp → fp ≠ "" →
        storeGet store (("article:") ++ fp) = some (.article a) →
        handleFetchSummary u h store = .complete a.summary a.headline a.generatedAt fp)
    ∧ (∀ fp, resolvedFingerprint u h store = some fp → fp ≠ "" →
        storeGet store (("article:") ++ fp) = none →
        jsTruthy (storeGetStr store (("lock:") ++ fp)) = true →
        handleFetchSummary u h store = .pending fp)
    ∧ (∀ fp, resolvedFingerprint u h store = some fp → fp ≠ "" →
        storeGet store (("article:") ++ fp) = none →
        jsTruthy (storeGetStr store (("lock:") ++ fp)) = false →
        handleFetchSummary u h store = .unknownWithHash fp) := by
  have hmp : ¬ (jsTruthy u = false ∧ jsTruthy h = false) := by
    rcases hp with hp | hp <;> simp [hp]
  refine ⟨?_, ?_, ?_, ?_⟩
  · intro hres
    unfold resolvedFingerprint at hres
    simp only [handleFetchSummary]
    rw [if_neg hmp, if_pos hres]
  · intro fp a hfp hne hart
    unfold resolvedFingerprint at hfp
    have h2 : jsOrOpt (some fp) "" = fp := by simp [jsOrOpt, jsOr, hne]
    simp only [handleFetchSummary]
    rw [if_neg hmp, hfp]
    rw [if_neg (by simp [jsTruthy, hne]), h2, hart]
  · intro fp hfp hne hart hlock
    unfold resolvedFingerprint at hfp
    have h2 : jsOrOpt (some fp) "" = fp := by simp [jsOrOpt, jsOr, hne]
    simp only [handleFetchSummary]
    rw [if_neg hmp, hfp]
    rw [if_neg (by simp [jsTruthy, hne]), h2, hart]
    simp [hlock]
  · intro fp hfp hne hart hlock
    unfold resolvedFingerprint at hfp
    have h2 : jsOrOpt (some fp) "" = fp := by simp [jsOrOpt, jsOr, hne]
    simp only [handleFetchSummary]
    rw [if_neg hmp, hfp]
    rw [if_neg (by simp [jsTruthy, hne]), h2, hart]
    simp [hlock]

/-- Witness for C8: a concrete fetch by hash against a store holding the
Cache Entry reports `complete` with the entry's data. -/
theorem fetch_case_order_witness :
    resolvedFingerprint none (some ("h1"))
      [(("article:h1"),
        .article { summary := ("S"), headline := ("H"),
                   model := ("google-deepmind/gemma-2b"), generatedAt := 5 }, 604800)] =
      some ("h1")
    ∧ handleFetchSummary none (some ("h1"))
        [(("article:h1"),
          .article { summary := ("S"), headline := ("H"),
                     model := ("google-deepmind/gemma-2b"), generatedAt := 5 }, 604800)] =
      .complete ("S") ("H") 5 ("h1") := by
  refine ⟨by decide, (fetch_case_order none (some ("h1"))
    [(("article:h1"),
      .article { summary := ("S"), headline := ("H"),
                 model := ("google-deepmind/gemma-2b"), generatedAt := 5 }, 604800)]
    (Or.inr rfl)).2.1 ("h1")
    { summary := ("S"), headline := ("H"),
      model := ("google-deepmind/gemma-2b"), generatedAt := 5 }
    rfl (by decide) (by decide)⟩

/-- Claim C4 (amended): the fingerprint is a function of the normalized
URL, the trimmed title, and the first 300 characters of the trimmed text —
EQUAL normalized URLs with identical trimmed title and identical trimmed
300-character prefix yield the same fingerprint.  (Distinct normalized URLs
do not: the URL is part of the hashed content — see the counterexample.) -/
theorem hash_deterministic (u1 u2 t1 t2 s1 s2 : String) (hu : u1 = u2)
    (ht : jsTrim t1 = jsTrim t2)
    (hs : jsTake (jsTrim s1) 300 = jsTake (jsTrim s2) 300) :
    generateContentHash u1 t1 s1 = generateContentHash u2 t2 s2 := by
  unfold generateContentHash hashContent
  rw [hu, ht, hs]

/-- Witness for C4: concrete inputs differing only in trim-irrelevant
whitespace hash identically. -/
theorem hash_deterministic_witness :
    jsTrim ("T ") = jsTrim ("T")
    ∧ jsTake (jsTrim (" S")) 300 = jsTake (jsTrim ("S")) 300
    ∧ generateContentHash ("https://a.com/x") ("T ") (" S") =
        generateContentHash ("https://a.com/x") ("T") ("S") :=
  ⟨by decide, by decide,
   hash_deterministic ("https://a.com/x") ("https://a.com/x") ("T ") ("T")
     (" S") ("S") rfl (by decide) (by decide)⟩

set_option maxRecDepth 100000 in
/-- Counterexample to C4 as stated: two distinct normalized URLs with
identical title and identical first-300-characters text produce DIFFERENT
fingerprints, because `generateContentHash` serializes the URL into the
hashed JSON object. -/
theorem hash_distinct_urls_differ :
    ("https://a.com/x") ≠ ("https://b.com/x")
    ∧ generateContentHash ("https://a.com/x") ("T") ("S") ≠
        generateContentHash ("https://b.com/x") ("T") ("S") := by
  exact ⟨by decide, by decide⟩

/-- Claim C5 (amended): for every key, value and TTL, a transport failure
during the store client's `set`, `setnx` or `del` is caught inside the
client, logged, and returned to the caller as a normal `false` — it is not
surfaced as an error. -/
theorem redis_write_failures_swallowed (key value : String) (ttl : Nat)
    (e : String) :
    redisSet key value (some ttl) (.error e) = .ok false
    ∧ redisSetnx key value ttl (.error e) = .ok false
    ∧ redisDel key (.error e) = .ok false :=
  ⟨rfl, rfl, rfl⟩

/-- Counterexample to C5 as stated: a transport failure during `setnx`
returns the ordinary value `false` (no error is raised), which is exactly
the value returned for a successful not-acquired reply — the failure is
swallowed and indistinguishable from lock contention; `set` and `del`
likewise return plain `false`. -/
theorem redis_setnx_error_indistinguishable :
    redisSetnx (("lock:h1")) (("1")) 60 (.error (("network failure"))) = .ok false
    ∧ redisSetnx (("lock:h1")) (("1")) 60 (.error (("network failure"))) =
        redisSetnx (("lock:h1")) (("1")) 60 (.ok .nul)
    ∧ redisSet (("article:h1")) (("v")) (some 604800) (.error (("network failure"))) = .ok false
    ∧ redisDel (("lock:h1")) (.error (("network failure"))) = .ok false :=
  ⟨rfl, rfl, rfl, rfl⟩


theorem splitFirst_subset (pat : List Char) (l : List Char) (a b : List Char)
    (h : splitFirst pat l = some (a, b)) :
    (∀ x ∈ a, x ∈ l) ∧ (∀ x ∈ b, x ∈ l) := by
  induction l generalizing a b with
  | nil =>
    unfold splitFirst at h
    by_cases hp : pat.isEmpty
    · rw [if_pos hp] at h
      cases h
      exact ⟨fun x hx => hx, fun x hx => hx⟩
    · rw [if_neg hp] at h
      cases h
  | cons c cs ih =>
    unfold splitFirst at h
    by_cases hp : pat.isPrefixOf (c :: cs)
    · rw [if_pos hp] at h
      cases h
      refine ⟨fun x hx => absurd hx (List.not_mem_nil x), fun x hx => ?_⟩
      exact List.drop_subset _ _ hx
    · rw [if_neg hp] at h
      cases hs : splitFirst pat cs with
      | none => rw [hs] at h; cases h
      | some ab =>
        obtain ⟨a2, b2⟩ := ab
        rw [hs] at h
        simp only [Option.some.injEq, Prod.mk.injEq] at h
        obtain ⟨ha, hb⟩ := h
        subst ha
        subst hb
        obtain ⟨iha, ihb⟩ := ih a2 b2 hs
        refine ⟨fun x hx => ?_, fun x hx => List.mem_cons_of_mem c (ihb x hx)⟩
        rcases List.mem_cons.mp hx with hx | hx
        · exact hx ▸ List.mem_cons_self c cs
        · exact List.mem_cons_of_mem c (iha x hx)

theorem splitFirst_eq_none_of_not_mem (c : Char) (pat l : List Char)
    (hc : c ∈ pat) (hl : c ∉ l) : splitFirst pat l = none := by
  induction l with
  | nil =>
    unfold splitFirst
    rw [if_neg]
    intro he
    rw [List.isEmpty_iff.mp he] at hc
    exact absurd hc (List.not_mem_nil c)
  | cons a l ih =>
    unfold splitFirst
    have hpref : ¬ (pat.isPrefixOf (a :: l) = true) := by
      intro hp
      exact hl ((List.isPrefixOf_iff_prefix.mp hp).subset hc)
    rw [if_neg hpref, ih (fun hm => hl (List.mem_cons_of_mem a hm))]

theorem replaceFirst_of_not_mem (c : Char) (pat rep s : String)
    (hc : c ∈ pat.data) (hs : c ∉ s.data) : replaceFirst pat rep s = s := by
  unfold replaceFirst
  rw [splitFirst_eq_none_of_not_mem c pat.data s.data hc hs]

theorem stripLeading_subset (pat s : String) (x : Char)
    (h : x ∈ (stripLeading pat s).data) : x ∈ s.data := by
  unfold stripLeading at h
  by_cases hp : pat.data.isPrefixOf s.data
  · rw [if_pos hp] at h
    exact List.drop_subset _ _ h
  · rw [if_neg hp] at h
    exact h

theorem replaceFirst_mem (pat rep s : String) (x : Char)
    (h : x ∈ (replaceFirst pat rep s).data) : x ∈ s.data ∨ x ∈ rep.data := by
  unfold replaceFirst at h
  cases hsp : splitFirst pat.data s.data with
  | none =>
    rw [hsp] at h
    exact Or.inl h
  | some ab =>
    obtain ⟨a, b⟩ := ab
    rw [hsp] at h
    obtain ⟨iha, ihb⟩ := splitFirst_subset pat.data s.data a b hsp
    rcases List.mem_append.mp h with h2 | h2
    · rcases List.mem_append.mp h2 with h3 | h3
      · exact Or.inl (iha x h3)
      · exact Or.inr h3
    · exact Or.inl (ihb x h2)

/-- Claim C9 (amended): for every parsed URL whose (lowercased) host
contains no slash — every real hostname — the normalizer lowercases the
host, deletes the tracking parameters, strips the fragment, drops a single
trailing slash from a non-root path, and collapses the `m.` host prefix and
`.m.` host infix; the `/mobile/` and `/m/` patterns are applied to the
HOSTNAME, where they cannot match, so path segments are left unchanged. -/
theorem normalize_components (u : UrlObj)
    (hhost : ('/') ∉ (jsLower u.host).data) :
    normalizeUrlObj u =
      { scheme := u.scheme,
        host := collapseMobileHost (jsLower u.host),
        path := if u.path.data.length > 1 ∧ u.path.data.getLast? = some '/' then
                  String.mk u.path.data.dropLast
                else u.path,
        params := u.params.filter (fun p => ¬ trackingParams.contains p.1),
        fragment := ("") } := by
  have h1 : ('/') ∉ (stripLeading ("m.") (jsLower u.host)).data :=
    fun hm => hhost (stripLeading_subset _ _ _ hm)
  have h2 : ('/') ∉ (replaceFirst (".m.") (".") (stripLeading ("m.") (jsLower u.host))).data := by
    intro hm
    rcases replaceFirst_mem _ _ _ _ hm with hm | hm
    · exact h1 hm
    · simp at hm
  have h3 : replaceFirst ("/mobile/") ("/")
      (replaceFirst (".m.") (".") (stripLeading ("m.") (jsLower u.host))) =
      replaceFirst (".m.") (".") (stripLeading ("m.") (jsLower u.host)) :=
    replaceFirst_of_not_mem '/' _ _ _ (by decide) h2
  have h4 : replaceFirst ("/m/") ("/")
      (replaceFirst (".m.") (".") (stripLeading ("m.") (jsLower u.host))) =
      replaceFirst (".m.") (".") (stripLeading ("m.") (jsLower u.host)) :=
    replaceFirst_of_not_mem '/' _ _ _ (by decide) h2
  unfold normalizeUrlObj collapseMobileHost
  simp only [h3, h4]

/-- Witness for C9: a concrete mobile Wikipedia-style URL object: the
`.m.` host infix collapses and the `/mobile/` path segment survives. -/
theorem normalize_components_witness :
    ('/') ∉ (jsLower (("en.m.Wikipedia.org"))).data
    ∧ normalizeUrlObj
        { scheme := ("https"), host := ("en.m.Wikipedia.org"),
          path := ("/mobile/page/"),
          params := [(("utm_source"), ("x")), (("q"), ("1"))],
          fragment := ("sec") } =
      { scheme := ("https"), host := ("en.wikipedia.org"),
        path := ("/mobile/page"), params := [(("q"), ("1"))],
        fragment := ("") } := by
  refine ⟨by decide, ?_⟩
  rw [normalize_components _ (by decide)]
  decide

/-- Counterexample to C9 as stated: `/mobile/` and `/m/` path segments
are NOT collapsed to their desktop equivalents — `normalizeUrl` returns
them unchanged (while the `m.` host prefix does collapse). -/
theorem normalize_mobile_path_preserved :
    normalizeUrl (("https://example.com/mobile/page")) =
      ("https://example.com/mobile/page")
    ∧ normalizeUrl (("https://example.com/mobile/page")) ≠
      ("https://example.com/page")
    ∧ normalizeUrl (("https://m.example.com/m/page")) =
      ("https://example.com/m/page") := by
  exact ⟨by decide, by decide, by decide⟩

end NoBizz
